import Mathlib

/-!
Shallow embedding of `src/main.py` (a MiniVenmo payment ledger).

Modelling conventions:
* Python `float` amounts are modelled as exact rationals (`ℚ`); the spec's data
  model describes amounts and balances as decimals.
* Python object identity is modelled by an index (`ℕ`) into the world's list of
  user objects; `Payment` and `Friendship` entries store these indices, which is
  the reference-by-identity semantics of the source.
* `uuid.uuid4()` generation of globally unique payment ids is modelled by a
  monotone counter `nextPaymentId` in the world; the property that already
  generated ids are below the counter (`IdsFresh`) models uuid uniqueness.
* Raised exceptions are modelled by returning the error alongside the world
  state as it stands at the raise site, so that absence of partial mutation is a
  theorem about the code's ordering of checks and writes, not an artifact of the
  encoding.
* `User._charge_credit_card` is a stub in the source (the external card-charge
  collaborator); its invocations are recorded in the world's `charges` log.
-/

/-- Errors raised as `CreditCardException` in `User.add_credit_card`. -/
inductive CardError where
  /-- message `'Only one credit card per user!'` -/
  | duplicate
  /-- message `'Invalid credit card number.'` -/
  | invalid
  deriving DecidableEq, Repr

/-- Errors raised as `PaymentException` in the payment paths. -/
inductive PayError where
  /-- message `'User cannot pay themselves.'` -/
  | selfPayment
  /-- message `'Amount must be a non-negative number.'` -/
  | invalidAmount
  /-- message `'Insufficient funds.'` -/
  | insufficientFunds
  /-- message `'Must have a credit card to make a payment.'` -/
  | missingCard
  deriving DecidableEq, Repr

/-- The error raised as `UsernameException` in `User.__init__`. -/
inductive UsernameError where
  /-- message `'Username not valid.'` -/
  | notValid
  deriving DecidableEq, Repr

/-- A user object: the mutable fields of the Python `User` instance.
Identity of a user object is its index in `World.users`. -/
structure User where
  username : String
  balance : ℚ
  credit_card_number : Option String
  deriving DecidableEq, Repr

/-- One entry of the shared activity feed: a `Payment` or a `Friendship`
record. Actor and target are stored by identity (user index), as in the
source where the Python objects themselves are stored. -/
inductive FeedEntry where
  | payment (id : ℕ) (amount : ℚ) (actor : ℕ) (target : ℕ) (note : String)
  | friendship (actor : ℕ) (target : ℕ)
  deriving DecidableEq, Repr

/-- The whole mutable state: all user objects, the registry's shared
`activity` feed, the log of external card-charge invocations, and the
fresh-id counter modelling `uuid.uuid4()`. -/
structure World where
  users : List User
  activity : List FeedEntry
  charges : List (String × ℚ)
  nextPaymentId : ℕ
  deriving DecidableEq, Repr

/-- Dereference a user object by identity. -/
def getUser (w : World) (i : ℕ) : User :=
  w.users.getD i { username := "", balance := 0, credit_card_number := none }

/-- Write back a user object (attribute mutation on the object at index `i`). -/
def setUser (w : World) (i : ℕ) (u : User) : World :=
  { w with users := w.users.set i u }

/-- Is `c` in the character class `[A-Za-z0-9_\-]` of the username pattern? -/
def isUsernameChar (c : Char) : Bool :=
  (decide ('A' ≤ c) && decide (c ≤ 'Z')) ||
  (decide ('a' ≤ c) && decide (c ≤ 'z')) ||
  (decide ('0' ≤ c) && decide (c ≤ '9')) ||
  (c == '_') || (c == '-')

/-- Do the characters `cs` match `[A-Za-z0-9_\-]{4,15}` in full? -/
def usernameCore (cs : List Char) : Bool :=
  decide (4 ≤ cs.length) && decide (cs.length ≤ 15) && cs.all isUsernameChar

/-- Embeds `User._is_valid_username`:
`re.match('^[A-Za-z0-9_\-]{4,15}$', username)`.
Python `re` semantics (no `MULTILINE`): `$` matches at the end of the string
or just before a newline at the end of the string, so the regex accepts the
core match optionally followed by one trailing `'\n'`. -/
def is_valid_username (s : String) : Bool :=
  usernameCore s.data ||
    (match s.data.getLast? with
     | some c => (c == '\n') && usernameCore s.data.dropLast
     | none => false)

/-- Embeds `User._is_valid_credit_card`: membership in the hard-coded whitelist. -/
def is_valid_credit_card (n : String) : Bool :=
  n == "4111111111111111" || n == "4242424242424242"

/-- Embeds `User.__init__(username)`: validates the username, initializes balance to
`0.0` and the card to absent; raises `UsernameException` when invalid (no
observable state exists on failure: the object is discarded). -/
def User.make (username : String) : Except UsernameError User :=
  if is_valid_username username then
    .ok { username := username, balance := 0, credit_card_number := none }
  else
    .error .notValid

/-- Embeds `User.add_to_balance(amount)`: `self.balance += float(amount)`. -/
def add_to_balance (w : World) (i : ℕ) (amount : ℚ) : World :=
  setUser w i { getUser w i with balance := (getUser w i).balance + amount }

/-- Embeds `User.add_credit_card(credit_card_number)`, acting on a user object:
duplicate check first, then whitelist validation, then the write.
The returned user is unchanged on error (the raise precedes any write). -/
def add_credit_card (u : User) (n : String) : User × Option CardError :=
  match u.credit_card_number with
  | some _ => (u, some .duplicate)
  | none =>
    if is_valid_credit_card n then
      ({ u with credit_card_number := some n }, none)
    else
      (u, some .invalid)

/-- Embeds `User.create_payment(amount, target, note)`: constructs a `Payment`
(drawing a fresh uuid, modelled by the counter), appends it to the shared
feed and returns it. -/
def create_payment (w : World) (actor : ℕ) (amount : ℚ) (target : ℕ)
    (note : String) : World × FeedEntry :=
  let p : FeedEntry := .payment w.nextPaymentId amount actor target note
  ({ w with activity := w.activity ++ [p], nextPaymentId := w.nextPaymentId + 1 }, p)

/-- Embeds `User._charge_credit_card(credit_card_number, amount)`: the external
collaborator stub; the invocation is recorded in the charge log. -/
def charge_credit_card (w : World) (card : String) (amount : ℚ) : World :=
  { w with charges := w.charges ++ [(card, amount)] }

/-- Embeds `User.pay_with_balance(target, amount, note)`. -/
def pay_with_balance (w : World) (actor target : ℕ) (amount : ℚ)
    (note : String) : World × Except PayError FeedEntry :=
  if (getUser w actor).username = (getUser w target).username then
    (w, .error .selfPayment)
  else if amount ≤ 0 then
    (w, .error .invalidAmount)
  else if (getUser w actor).balance < amount then
    (w, .error .insufficientFunds)
  else
    let w1 := add_to_balance w actor (-amount)
    let w2 := add_to_balance w1 target amount
    let r := create_payment w2 actor amount target note
    (r.1, .ok r.2)

/-- Embeds `User.pay_with_card(target, amount, note)`. -/
def pay_with_card (w : World) (actor target : ℕ) (amount : ℚ)
    (note : String) : World × Except PayError FeedEntry :=
  if (getUser w actor).username = (getUser w target).username then
    (w, .error .selfPayment)
  else if amount ≤ 0 then
    (w, .error .invalidAmount)
  else
    match (getUser w actor).credit_card_number with
    | none => (w, .error .missingCard)
    | some card =>
      let w1 := charge_credit_card w card amount
      let w2 := add_to_balance w1 target amount
      let r := create_payment w2 actor amount target note
      (r.1, .ok r.2)

/-- Embeds `User.pay(target, amount, note)`: try the balance path; on any
`PaymentException`, retry via the card path (on the state the failed balance
attempt left behind). -/
def pay (w : World) (actor target : ℕ) (amount : ℚ)
    (note : String) : World × Except PayError FeedEntry :=
  match pay_with_balance w actor target amount note with
  | (w1, .ok p) => (w1, .ok p)
  | (w1, .error _) => pay_with_card w1 actor target amount note

/-- Actor of a feed entry. -/
def entryActor : FeedEntry → ℕ
  | .payment _ _ a _ _ => a
  | .friendship a _ => a

/-- Target of a feed entry. -/
def entryTarget : FeedEntry → ℕ
  | .payment _ _ _ t _ => t
  | .friendship _ t => t

/-- Embeds `User.retrieve_feed()`: the entries of the shared feed in which this user
object itself is actor or target (`self in (entry.actor, entry.target)` is
identity comparison, since `User` defines no `__eq__`). -/
def retrieve_feed (w : World) (i : ℕ) : List FeedEntry :=
  w.activity.filter fun e => decide (i = entryActor e) || decide (i = entryTarget e)

/-- Embeds `User.add_friend(new_friend)`: append a `Friendship(self, new_friend)`. -/
def add_friend (w : World) (i j : ℕ) : World :=
  { w with activity := w.activity ++ [.friendship i j] }

/-- Errors propagating out of `MiniVenmo.create_user`. -/
inductive CreateUserError where
  | username (e : UsernameError)
  | card (e : CardError)
  deriving DecidableEq, Repr

/-- Embeds `MiniVenmo.create_user(username, balance, credit_card_number)`:
construct the user (validating the username), seed the balance, optionally
attach the card, then register the user against this registry (modelled by
appending the object to `World.users`; the returned value is its identity).
On an exception, the half-built object is discarded and nothing observable
changed. -/
def create_user (w : World) (username : String) (balance : ℚ)
    (card : Option String) : World × Except CreateUserError ℕ :=
  match User.make username with
  | .error e => (w, .error (.username e))
  | .ok u =>
    let u1 := { u with balance := u.balance + balance }
    match card with
    | none => ({ w with users := w.users ++ [u1] }, .ok w.users.length)
    | some c =>
      match add_credit_card u1 c with
      | (u2, none) => ({ w with users := w.users ++ [u2] }, .ok w.users.length)
      | (_, some e) => (w, .error (.card e))

/-- The ids of the `Payment` entries of a feed. -/
def paymentIds (l : List FeedEntry) : List ℕ :=
  l.filterMap fun e =>
    match e with
    | .payment id _ _ _ _ => some id
    | .friendship _ _ => none

/-- Every payment id already in the feed is below the counter: the embedding
of uuid uniqueness (all reachable worlds satisfy it). -/
def IdsFresh (w : World) : Prop :=
  ∀ id ∈ paymentIds w.activity, id < w.nextPaymentId

/-- Did a fallible call succeed? -/
def callOk {ε α : Type} (r : Except ε α) : Bool :=
  match r with
  | .ok _ => true
  | .error _ => false

/-- The username rule exactly as the spec's claim words it: only the character
class `[A-Za-z0-9_-]`, case sensitive, length 4 to 15 inclusive, and no other
characters anywhere in the string. -/
def matchesSpecPattern (s : String) : Bool :=
  decide (4 ≤ s.length) && decide (s.length ≤ 15) && s.data.all isUsernameChar

/-- The empty registry: no users, empty feed, no charges made yet. -/
def emptyWorld : World :=
  { users := [], activity := [], charges := [], nextPaymentId := 0 }

/-- A concrete two-user registry for instantiations: Bobby (index 0,
balance 5, card on file) and Carol (index 1, balance 10, no card). -/
def wBC : World :=
  { users :=
      [{ username := "Bobby", balance := 5,
         credit_card_number := some "4111111111111111" },
       { username := "Carol", balance := 10, credit_card_number := none }],
    activity := [], charges := [], nextPaymentId := 0 }

/-- A registry holding two distinct user objects with the same username
(reachable, since `create_user` does not check uniqueness). -/
def wDup : World :=
  { users :=
      [{ username := "Bobby", balance := 5,
         credit_card_number := some "4111111111111111" },
       { username := "Bobby", balance := 10, credit_card_number := none }],
    activity := [], charges := [], nextPaymentId := 0 }

/-! ### Helper lemmas about the state operations -/

/-- Reading back the index just written. -/
theorem getD_set_self (l : List User) (i : ℕ) (u d : User) (h : i < l.length) :
    (l.set i u).getD i d = u := by
  induction l generalizing i with
  | nil => simp at h
  | cons a t ih =>
    cases i with
    | zero => simp
    | succ n => simpa using ih n (by simpa using h)

/-- Writing one index leaves every other index unchanged. -/
theorem getD_set_ne (l : List User) (i j : ℕ) (u d : User) (h : i ≠ j) :
    (l.set i u).getD j d = l.getD j d := by
  induction l generalizing i j with
  | nil => simp
  | cons a t ih =>
    cases i with
    | zero =>
      cases j with
      | zero => exact absurd rfl h
      | succ m => simp
    | succ n =>
      cases j with
      | zero => simp
      | succ m => simpa using ih n m (by omega)

theorem getUser_setUser_self (w : World) (i : ℕ) (u : User)
    (h : i < w.users.length) : getUser (setUser w i u) i = u :=
  getD_set_self _ _ _ _ h

theorem getUser_setUser_ne (w : World) (i j : ℕ) (u : User) (h : i ≠ j) :
    getUser (setUser w i u) j = getUser w j :=
  getD_set_ne _ _ _ _ _ h

theorem getUser_add_to_balance_self (w : World) (i : ℕ) (a : ℚ)
    (h : i < w.users.length) :
    getUser (add_to_balance w i a) i =
      { getUser w i with balance := (getUser w i).balance + a } :=
  getUser_setUser_self _ _ _ h

theorem getUser_add_to_balance_ne (w : World) (i j : ℕ) (a : ℚ) (h : i ≠ j) :
    getUser (add_to_balance w i a) j = getUser w j :=
  getUser_setUser_ne _ _ _ _ h

theorem length_add_to_balance (w : World) (i : ℕ) (a : ℚ) :
    (add_to_balance w i a).users.length = w.users.length := by
  simp [add_to_balance, setUser]

/-- A failed balance payment leaves the world exactly as it was: all three
validation raises happen before any write. -/
theorem pay_with_balance_error_frame (w : World) (x y : ℕ) (a : ℚ) (note : String) :
    callOk (pay_with_balance w x y a note).2 = false →
    (pay_with_balance w x y a note).1 = w := by
  unfold pay_with_balance
  split
  · intro _; rfl
  · split
    · intro _; rfl
    · split
      · intro _; rfl
      · intro h; simp [callOk] at h

/-- A failed card payment leaves the world exactly as it was: all three
validation raises happen before the charge and before any write. -/
theorem pay_with_card_error_frame (w : World) (x y : ℕ) (a : ℚ) (note : String) :
    callOk (pay_with_card w x y a note).2 = false →
    (pay_with_card w x y a note).1 = w := by
  unfold pay_with_card
  split
  · intro _; rfl
  · split
    · intro _; rfl
    · split
      · intro _; rfl
      · intro h; simp [callOk] at h

/-- Count of an element in a filtered feed. -/
theorem count_filter_eq (p : FeedEntry → Bool) (l : List FeedEntry) (e : FeedEntry) :
    (l.filter p).count e = if p e = true then l.count e else 0 := by
  induction l with
  | nil => simp
  | cons a t ih =>
    simp only [List.filter_cons]
    by_cases hpa : p a = true
    · rw [if_pos hpa, List.count_cons, ih]
      by_cases hpe : p e = true
      · rw [if_pos hpe, if_pos hpe, List.count_cons]
      · rw [if_neg hpe, if_neg hpe]
        have hae : (a == e) = false := by
          by_cases h : a = e
          · subst h; exact absurd hpa hpe
          · exact beq_false_of_ne h
        simp [hae]
    · rw [if_neg hpa, ih]
      by_cases hpe : p e = true
      · rw [if_pos hpe, if_pos hpe, List.count_cons]
        have hae : (a == e) = false := by
          by_cases h : a = e
          · subst h; exact absurd hpe hpa
          · exact beq_false_of_ne h
        simp [hae]
      · rw [if_neg hpe, if_neg hpe]

/-! ### The claims -/

/-- Claim C1: for two accounts with distinct usernames, a positive amount
covered by the actor's balance, and any note, `pay_with_balance` succeeds,
debits the actor by exactly the amount, credits the target by exactly the
amount, appends exactly one `Payment` entry — with that actor, target,
amount, note, and a fresh id unequal to every id already in the feed — to the
end of the shared feed, and returns that entry. -/
theorem pay_with_balance_success (w : World) (x y : ℕ) (a : ℚ) (note : String)
    (hx : x < w.users.length) (hy : y < w.users.length)
    (hname : (getUser w x).username ≠ (getUser w y).username)
    (ha : 0 < a) (hbal : a ≤ (getUser w x).balance) (hfresh : IdsFresh w) :
    (pay_with_balance w x y a note).2 =
      .ok (.payment w.nextPaymentId a x y note) ∧
    (getUser (pay_with_balance w x y a note).1 x).balance =
      (getUser w x).balance - a ∧
    (getUser (pay_with_balance w x y a note).1 y).balance =
      (getUser w y).balance + a ∧
    (pay_with_balance w x y a note).1.activity =
      w.activity ++ [.payment w.nextPaymentId a x y note] ∧
    w.nextPaymentId ∉ paymentIds w.activity := by
  have hxy : x ≠ y := fun h => hname (by rw [h])
  have h1 : ¬ a ≤ 0 := not_le.mpr ha
  have h2 : ¬ (getUser w x).balance < a := not_lt.mpr hbal
  have heq : pay_with_balance w x y a note =
      ((create_payment (add_to_balance (add_to_balance w x (-a)) y a) x a y note).1,
        .ok (create_payment (add_to_balance (add_to_balance w x (-a)) y a) x a y note).2) := by
    unfold pay_with_balance
    rw [if_neg hname, if_neg h1, if_neg h2]
  refine ⟨?_, ?_, ?_, ?_, ?_⟩
  · rw [heq]; rfl
  · rw [heq]
    have e1 : getUser (create_payment (add_to_balance (add_to_balance w x (-a)) y a) x a y note).1 x
        = getUser (add_to_balance (add_to_balance w x (-a)) y a) x := rfl
    rw [e1, getUser_add_to_balance_ne _ _ _ _ (Ne.symm hxy),
        getUser_add_to_balance_self _ _ _ hx]
    ring
  · rw [heq]
    have e1 : getUser (create_payment (add_to_balance (add_to_balance w x (-a)) y a) x a y note).1 y
        = getUser (add_to_balance (add_to_balance w x (-a)) y a) y := rfl
    rw [e1, getUser_add_to_balance_self _ _ _ (by rw [length_add_to_balance]; exact hy),
        getUser_add_to_balance_ne _ _ _ _ hxy]
  · rw [heq]; rfl
  · intro hmem
    exact absurd (hfresh _ hmem) (lt_irrefl _)

/-- Witness for C1: in the concrete registry `wBC`, Bobby pays Carol 5 from
balance. -/
theorem pay_with_balance_success_witness :
    (0 < wBC.users.length ∧ 1 < wBC.users.length ∧
      (getUser wBC 0).username ≠ (getUser wBC 1).username ∧
      (0 : ℚ) < 5 ∧ (5 : ℚ) ≤ (getUser wBC 0).balance ∧ IdsFresh wBC) ∧
    ((pay_with_balance wBC 0 1 5 "Coffee").2 =
        .ok (.payment wBC.nextPaymentId 5 0 1 "Coffee") ∧
      (getUser (pay_with_balance wBC 0 1 5 "Coffee").1 0).balance =
        (getUser wBC 0).balance - 5 ∧
      (getUser (pay_with_balance wBC 0 1 5 "Coffee").1 1).balance =
        (getUser wBC 1).balance + 5 ∧
      (pay_with_balance wBC 0 1 5 "Coffee").1.activity =
        wBC.activity ++ [.payment wBC.nextPaymentId 5 0 1 "Coffee"] ∧
      wBC.nextPaymentId ∉ paymentIds wBC.activity) :=
  ⟨⟨by decide, by decide, by decide, by decide, by decide,
      by intro id hid; simp [paymentIds, wBC] at hid⟩,
    pay_with_balance_success wBC 0 1 5 "Coffee" (by decide) (by decide)
      (by decide) (by decide) (by decide)
      (by intro id hid; simp [paymentIds, wBC] at hid)⟩

/-- Claim C2: for two accounts with distinct usernames, a positive amount and
any note, when the actor has a card on file `pay_with_card` succeeds, leaves
the actor's balance unchanged, credits the target by exactly the amount,
invokes the external charge collaborator exactly once with the actor's card
number and the amount, appends exactly one `Payment` entry to the shared feed
and returns it. -/
theorem pay_with_card_success (w : World) (x y : ℕ) (a : ℚ) (note c : String)
    (hy : y < w.users.length)
    (hname : (getUser w x).username ≠ (getUser w y).username)
    (ha : 0 < a) (hcard : (getUser w x).credit_card_number = some c) :
    (pay_with_card w x y a note).2 =
      .ok (.payment w.nextPaymentId a x y note) ∧
    (getUser (pay_with_card w x y a note).1 x).balance = (getUser w x).balance ∧
    (getUser (pay_with_card w x y a note).1 y).balance =
      (getUser w y).balance + a ∧
    (pay_with_card w x y a note).1.charges = w.charges ++ [(c, a)] ∧
    (pay_with_card w x y a note).1.activity =
      w.activity ++ [.payment w.nextPaymentId a x y note] := by
  have hxy : x ≠ y := fun h => hname (by rw [h])
  have h1 : ¬ a ≤ 0 := not_le.mpr ha
  have heq : pay_with_card w x y a note =
      ((create_payment (add_to_balance (charge_credit_card w c a) y a) x a y note).1,
        .ok (create_payment (add_to_balance (charge_credit_card w c a) y a) x a y note).2) := by
    unfold pay_with_card
    rw [if_neg hname, if_neg h1, hcard]
  refine ⟨?_, ?_, ?_, ?_, ?_⟩
  · rw [heq]; rfl
  · rw [heq]
    have e1 : getUser (create_payment (add_to_balance (charge_credit_card w c a) y a) x a y note).1 x
        = getUser (add_to_balance (charge_credit_card w c a) y a) x := rfl
    rw [e1, getUser_add_to_balance_ne _ _ _ _ (Ne.symm hxy)]
    rfl
  · rw [heq]
    have e1 : getUser (create_payment (add_to_balance (charge_credit_card w c a) y a) x a y note).1 y
        = getUser (add_to_balance (charge_credit_card w c a) y a) y := rfl
    rw [e1, getUser_add_to_balance_self (charge_credit_card w c a) y a hy]
    rfl
  · rw [heq]; rfl
  · rw [heq]; rfl

/-- Witness for C2: Bobby pays Carol 7 via his card in `wBC`; his balance of 5
is untouched and one charge of (his card, 7) is recorded. -/
theorem pay_with_card_success_witness :
    (1 < wBC.users.length ∧
      (getUser wBC 0).username ≠ (getUser wBC 1).username ∧ (0 : ℚ) < 7 ∧
      (getUser wBC 0).credit_card_number = some "4111111111111111") ∧
    ((pay_with_card wBC 0 1 7 "Chocolate").2 =
        .ok (.payment wBC.nextPaymentId 7 0 1 "Chocolate") ∧
      (getUser (pay_with_card wBC 0 1 7 "Chocolate").1 0).balance =
        (getUser wBC 0).balance ∧
      (getUser (pay_with_card wBC 0 1 7 "Chocolate").1 1).balance =
        (getUser wBC 1).balance + 7 ∧
      (pay_with_card wBC 0 1 7 "Chocolate").1.charges =
        wBC.charges ++ [("4111111111111111", 7)] ∧
      (pay_with_card wBC 0 1 7 "Chocolate").1.activity =
        wBC.activity ++ [.payment wBC.nextPaymentId 7 0 1 "Chocolate"]) :=
  ⟨⟨by decide, by decide, by decide, by decide⟩,
    pay_with_card_success wBC 0 1 7 "Chocolate" "4111111111111111"
      (by decide) (by decide) (by decide) (by decide)⟩

/-- Claim C3: the composite `pay` first attempts the balance path (returning
its result on success) and falls back to the card path on any payment error;
in particular an actor with no card and insufficient balance, paying a
positive amount to an account with a different username, gets the card path's
missing-card error surfaced. -/
theorem pay_fallback_missing_card (w : World) (x y : ℕ) (a : ℚ) (note : String) :
    (∀ w1 p, pay_with_balance w x y a note = (w1, .ok p) →
      pay w x y a note = (w1, .ok p)) ∧
    (callOk (pay_with_balance w x y a note).2 = false →
      pay w x y a note =
        pay_with_card (pay_with_balance w x y a note).1 x y a note) ∧
    ((getUser w x).username ≠ (getUser w y).username → 0 < a →
      (getUser w x).balance < a → (getUser w x).credit_card_number = none →
      pay w x y a note = (w, Except.error PayError.missingCard)) := by
  refine ⟨?_, ?_, ?_⟩
  · intro w1 p hb
    simp [pay, hb]
  · intro h
    rcases hb : pay_with_balance w x y a note with ⟨w1, r⟩
    cases r with
    | ok p => rw [hb] at h; simp [callOk] at h
    | error e => simp [pay, hb]
  · intro hname ha hbal hcard
    have h1 : ¬ a ≤ 0 := not_le.mpr ha
    have hb : pay_with_balance w x y a note = (w, .error .insufficientFunds) := by
      unfold pay_with_balance
      rw [if_neg hname, if_neg h1, if_pos hbal]
    have hc : pay_with_card w x y a note = (w, .error .missingCard) := by
      unfold pay_with_card
      rw [if_neg hname, if_neg h1, hcard]
    simp [pay, hb, hc]

/-- Witness for C3: Carol (balance 10, no card) pays Bobby 11; the balance
path fails with insufficient funds, the card path fails with the missing-card
error, and `pay` surfaces the latter with no state change. -/
theorem pay_fallback_missing_card_witness :
    ((getUser wBC 1).username ≠ (getUser wBC 0).username ∧ (0 : ℚ) < 11 ∧
      (getUser wBC 1).balance < 11 ∧
      (getUser wBC 1).credit_card_number = none) ∧
    pay wBC 1 0 11 "Mirror" = (wBC, Except.error PayError.missingCard) :=
  ⟨⟨by decide, by decide, by decide, by decide⟩,
    (pay_fallback_missing_card wBC 1 0 11 "Mirror").2.2
      (by decide) (by decide) (by decide) (by decide)⟩

/-- Claim C4: a `pay_with_balance`, `pay_with_card` or composite `pay` call
that fails with a payment validation error mutates nothing: the whole world
(both balances, the shared feed, and the charge log) is exactly as before the
call. -/
theorem payment_failure_no_mutation (w : World) (x y : ℕ) (a : ℚ) (note : String) :
    (callOk (pay_with_balance w x y a note).2 = false →
      (pay_with_balance w x y a note).1 = w) ∧
    (callOk (pay_with_card w x y a note).2 = false →
      (pay_with_card w x y a note).1 = w) ∧
    (callOk (pay w x y a note).2 = false → (pay w x y a note).1 = w) := by
  refine ⟨pay_with_balance_error_frame w x y a note,
    pay_with_card_error_frame w x y a note, ?_⟩
  intro h
  rcases hb : pay_with_balance w x y a note with ⟨w1, r⟩
  cases r with
  | ok p =>
    have hp : pay w x y a note = (w1, .ok p) := by simp [pay, hb]
    rw [hp] at h; simp [callOk] at h
  | error e =>
    have hp : pay w x y a note = pay_with_card w1 x y a note := by simp [pay, hb]
    have hw1 : w1 = w := by
      have hfr := pay_with_balance_error_frame w x y a note
      rw [hb] at hfr
      exact hfr rfl
    rw [hp, hw1] at h ⊢
    exact pay_with_card_error_frame w x y a note h

/-- Witness for C4: a self-payment attempt (Bobby to Bobby) fails on all
three entry points and leaves `wBC` untouched. -/
theorem payment_failure_no_mutation_witness :
    (callOk (pay_with_balance wBC 0 0 1 "Tea").2 = false ∧
      callOk (pay_with_card wBC 0 0 1 "Tea").2 = false ∧
      callOk (pay wBC 0 0 1 "Tea").2 = false) ∧
    (pay_with_balance wBC 0 0 1 "Tea").1 = wBC ∧
    (pay_with_card wBC 0 0 1 "Tea").1 = wBC ∧
    (pay wBC 0 0 1 "Tea").1 = wBC :=
  ⟨⟨by decide, by decide, by decide⟩,
    (payment_failure_no_mutation wBC 0 0 1 "Tea").1 (by decide),
    (payment_failure_no_mutation wBC 0 0 1 "Tea").2.1 (by decide),
    (payment_failure_no_mutation wBC 0 0 1 "Tea").2.2 (by decide)⟩

/-- Claim C5: `add_credit_card` fails with the duplicate-card error whenever a
card is already set, retaining the stored card; with no card set it fails with
the invalid-card error unless the number is exactly `4111111111111111` or
`4242424242424242`, and on success it sets the card, so the field only ever
transitions from absent to set. -/
theorem add_credit_card_spec (u : User) (n : String) :
    (∀ c, u.credit_card_number = some c →
      add_credit_card u n = (u, some CardError.duplicate)) ∧
    (u.credit_card_number = none → is_valid_credit_card n = false →
      add_credit_card u n = (u, some CardError.invalid)) ∧
    (u.credit_card_number = none → is_valid_credit_card n = true →
      add_credit_card u n = ({ u with credit_card_number := some n }, none)) ∧
    (is_valid_credit_card n = true ↔
      (n = "4111111111111111" ∨ n = "4242424242424242")) := by
  refine ⟨?_, ?_, ?_, ?_⟩
  · intro c hc; simp [add_credit_card, hc]
  · intro h0 hv; simp [add_credit_card, h0, hv]
  · intro h0 hv; simp [add_credit_card, h0, hv]
  · simp [is_valid_credit_card]

/-- Witness for C5: attaching to Bobby (card already set) fails with the
duplicate error and retains his card; attaching a whitelisted number to Carol
(no card) succeeds; attaching a non-whitelisted number to Carol fails. -/
theorem add_credit_card_spec_witness :
    ((getUser wBC 0).credit_card_number = some "4111111111111111" ∧
      (getUser wBC 1).credit_card_number = none ∧
      is_valid_credit_card "4242424242424242" = true ∧
      is_valid_credit_card "1234" = false) ∧
    add_credit_card (getUser wBC 0) "4242424242424242" =
      (getUser wBC 0, some CardError.duplicate) ∧
    add_credit_card (getUser wBC 1) "4242424242424242" =
      ({ getUser wBC 1 with credit_card_number := some "4242424242424242" }, none) ∧
    add_credit_card (getUser wBC 1) "1234" =
      (getUser wBC 1, some CardError.invalid) :=
  ⟨⟨by decide, by decide, by decide, by decide⟩,
    (add_credit_card_spec (getUser wBC 0) "4242424242424242").1
      "4111111111111111" (by decide),
    (add_credit_card_spec (getUser wBC 1) "4242424242424242").2.2.1
      (by decide) (by decide),
    (add_credit_card_spec (getUser wBC 1) "1234").2.1 (by decide) (by decide)⟩

/-- Claim C10: the self-payment check compares usernames, not object
identity: whenever actor and target usernames are equal — including for two
distinct user objects — `pay_with_balance`, `pay_with_card` and `pay` all
fail with the self-payment error and mutate nothing, for every amount, note,
balance and card state. -/
theorem same_username_self_payment (w : World) (x y : ℕ) (a : ℚ) (note : String)
    (hname : (getUser w x).username = (getUser w y).username) :
    pay_with_balance w x y a note = (w, Except.error PayError.selfPayment) ∧
    pay_with_card w x y a note = (w, Except.error PayError.selfPayment) ∧
    pay w x y a note = (w, Except.error PayError.selfPayment) := by
  have h1 : pay_with_balance w x y a note = (w, .error .selfPayment) := by
    unfold pay_with_balance; rw [if_pos hname]
  have h2 : pay_with_card w x y a note = (w, .error .selfPayment) := by
    unfold pay_with_card; rw [if_pos hname]
  exact ⟨h1, h2, by simp [pay, h1, h2]⟩

/-- Witness for C10: in `wDup`, user 0 and user 1 are distinct objects (one
has balance 5 and a card, the other balance 10 and none) that share the
username, and every payment path between them fails as a self-payment. -/
theorem same_username_self_payment_witness :
    ((getUser wDup 0).username = (getUser wDup 1).username ∧
      getUser wDup 0 ≠ getUser wDup 1) ∧
    pay_with_balance wDup 0 1 2 "Tea" = (wDup, Except.error PayError.selfPayment) ∧
    pay_with_card wDup 0 1 2 "Tea" = (wDup, Except.error PayError.selfPayment) ∧
    pay wDup 0 1 2 "Tea" = (wDup, Except.error PayError.selfPayment) :=
  ⟨⟨by decide, by decide⟩,
    (same_username_self_payment wDup 0 1 2 "Tea" (by decide)).1,
    (same_username_self_payment wDup 0 1 2 "Tea" (by decide)).2.1,
    (same_username_self_payment wDup 0 1 2 "Tea" (by decide)).2.2⟩

/-- Counterexample to C6 as stated: the five-character string of `abcd`
followed by a newline contains a character outside the class (so the claim
says construction must fail), yet construction succeeds, because Python's
`$` anchor also matches just before a trailing newline. -/
theorem username_trailing_newline_counterexample :
    matchesSpecPattern "abcd\n" = false ∧ callOk (User.make "abcd\n") = true := by
  decide

/-- Claim C6 (amended): account construction succeeds exactly when the
username matches the pattern — the stated character class, case sensitive,
length 4 to 15 inclusive — either in full, or in full after discarding one
single trailing newline character; every other string fails. -/
theorem username_validation_characterization (s : String) :
    callOk (User.make s) = true ↔
      (matchesSpecPattern s = true ∨
        (s.data.getLast? = some '\n' ∧
          matchesSpecPattern (String.mk s.data.dropLast) = true)) := by
  have hmk : callOk (User.make s) = is_valid_username s := by
    unfold User.make
    by_cases hv : is_valid_username s
    · simp [hv, callOk]
    · simp [hv, callOk]
  rw [hmk]
  have hms : matchesSpecPattern s = usernameCore s.data := rfl
  have hmd : matchesSpecPattern (String.mk s.data.dropLast) =
      usernameCore s.data.dropLast := rfl
  rw [hms, hmd]
  unfold is_valid_username
  cases hl : s.data.getLast? with
  | none => simp [hl]
  | some c =>
    by_cases hc : c = '\n'
    · subst hc; simp [hl]
    · simp [hl, hc]

/-- Claim C7: `retrieve_feed` for a user returns exactly the subsequence of
the shared feed made of the entries in which that user (by identity) is the
actor or the target, in original append order — an order-preserving sublist
containing each matching entry with its full multiplicity and no others. -/
theorem retrieve_feed_characterization (w : World) (i : ℕ) :
    List.Sublist (retrieve_feed w i) w.activity ∧
    (∀ e : FeedEntry, (retrieve_feed w i).count e =
      if i = entryActor e ∨ i = entryTarget e then w.activity.count e else 0) := by
  constructor
  · exact List.filter_sublist _
  · intro e
    unfold retrieve_feed
    rw [count_filter_eq]
    by_cases hp : i = entryActor e ∨ i = entryTarget e
    · rw [if_pos hp, if_pos (by simpa using hp)]
    · rw [if_neg hp, if_neg (by simpa using hp)]

/-- Counterexample to C8 as stated: starting from the empty registry,
creating Bobby and then creating a second account with the same username both
succeed, leaving two accounts of one registry with the username `Bobby`. -/
theorem duplicate_username_counterexample :
    callOk (create_user emptyWorld "Bobby" 5 none).2 = true ∧
    callOk (create_user (create_user emptyWorld "Bobby" 5 none).1 "Bobby" 3 none).2 = true ∧
    (getUser (create_user (create_user emptyWorld "Bobby" 5 none).1 "Bobby" 3 none).1 0).username = "Bobby" ∧
    (getUser (create_user (create_user emptyWorld "Bobby" 5 none).1 "Bobby" 3 none).1 1).username = "Bobby" := by
  decide

/-- Claim C8 (amended): `create_user` performs no username-uniqueness check:
on any registry state, creating an account with a valid username (and no
card) succeeds and appends a fresh account with that username — even when an
existing account of the same registry already holds it — so usernames are
not unique within a registry. -/
theorem create_user_ignores_existing_usernames (w : World) (username : String)
    (b : ℚ) (h : is_valid_username username = true) :
    (create_user w username b none).2 = .ok w.users.length ∧
    (create_user w username b none).1.users =
      w.users ++ [{ username := username, balance := b, credit_card_number := none }] := by
  simp [create_user, User.make, h]

/-- Witness for C8 (amended): creating a second `Bobby` in a registry that
already holds a user named `Bobby` succeeds and appends it. -/
theorem create_user_ignores_existing_usernames_witness :
    is_valid_username "Bobby" = true ∧
    ((create_user wDup "Bobby" 3 none).2 = .ok wDup.users.length ∧
      (create_user wDup "Bobby" 3 none).1.users =
        wDup.users ++ [{ username := "Bobby", balance := 3, credit_card_number := none }]) :=
  ⟨by decide, create_user_ignores_existing_usernames wDup "Bobby" 3 (by decide)⟩

/-- Claim C9: `add_to_balance` is additive: after any finite sequence of
calls with deltas of any sign, the balance equals the initial balance plus
the sum of the deltas. -/
theorem add_to_balance_additive (w : World) (i : ℕ) (ds : List ℚ)
    (h : i < w.users.length) :
    (getUser (ds.foldl (fun s d => add_to_balance s i d) w) i).balance =
      (getUser w i).balance + ds.sum := by
  induction ds generalizing w with
  | nil => simp
  | cons d t ih =>
    rw [List.foldl_cons,
      ih (add_to_balance w i d) (by rw [length_add_to_balance]; exact h),
      getUser_add_to_balance_self w i d h]
    simp [add_assoc]

/-- Witness for C9: crediting 2 then debiting 3 on Bobby's account (initial
balance 5) lands on 5 + (2 - 3) = 4. -/
theorem add_to_balance_additive_witness :
    0 < wBC.users.length ∧
    (getUser (([2, -3] : List ℚ).foldl (fun s d => add_to_balance s 0 d) wBC) 0).balance =
      (getUser wBC 0).balance + ([2, -3] : List ℚ).sum :=
  ⟨by decide, add_to_balance_additive wBC 0 [2, -3] (by decide)⟩
